import Mathlib

/-!
Shallow embedding of `watch_nevada_secret.py` (geofenced aircraft contact
tracker).  Numeric feed values and coordinates are embedded as exact
rationals (`ℚ`); Python floats are idealised as exact arithmetic.  Each
definition mirrors the Python function of the same name; line references
point into `src/watch_nevada_secret.py`.
-/

namespace WatchNevada

/-! ### Thresholds and config constants (lines 42-52) -/

def MAX_GS_KT : ℚ := 650
def MIN_GS_KT : ℚ := 35
def MIN_ALT_FT : ℤ := 500
def MAX_ALT_FT : ℤ := 60000
def MAX_VS_FPM : ℚ := 8000
def MAX_DGS_KTS : ℚ := 250
def HTTP_RETRIES : ℕ := 2

/-! ### Point-in-polygon, ray casting (lines 104-133) -/

/-- point_in_ring (lines 104-113).  Even-odd ray casting; the point is a
(lat, lon) pair, the code reads x from index 1 (lon) and y from index 0
(lat).  The 1e-12 epsilon added to the denominator mirrors the source's
divide-by-zero guard for horizontal edges. -/
def point_in_ring (point : ℚ × ℚ) (ring : List (ℚ × ℚ)) : Bool :=
  let x := point.2
  let y := point.1
  let n := ring.length
  (List.range n).foldl
    (fun inside i =>
      let vi := ring.getD i (0, 0)
      let vj := ring.getD ((i + 1) % n) (0, 0)
      let yi := vi.1
      let xi := vi.2
      let yj := vj.1
      let xj := vj.2
      if (decide (yi > y) != decide (yj > y)) &&
         decide (x < (xj - xi) * (y - yi) / (yj - yi + 1e-12) + xi)
      then !inside else inside)
    false

/-- point_in_polygon (lines 115-124): inside the exterior ring (index 0)
and inside no hole ring (indices 1..). -/
def point_in_polygon (point : ℚ × ℚ) (polygon : List (List (ℚ × ℚ))) : Bool :=
  match polygon with
  | [] => false
  | exterior :: holes =>
    if point_in_ring point exterior = false then false
    else if holes.any (fun hole => point_in_ring point hole) then false
    else true

/-- in_any_polygon (lines 126-133): missing coordinate is never contained;
otherwise OR of point_in_polygon over the polygon list. -/
def in_any_polygon (lat lon : Option ℚ) (polygons : List (List (List (ℚ × ℚ)))) : Bool :=
  match lat, lon with
  | some la, some lo => polygons.any (fun poly => point_in_polygon (la, lo) poly)
  | _, _ => false

/-! ### Aircraft samples (dataclass, lines 57-69) -/

/-- Aircraft (lines 57-69).  `hex` and `flight` are plain strings, as in the
Python dataclass (`hex: str`, `flight: str`); only `reg`, `model_t` and
`model_desc` are optional strings.  Numeric fields are optional exact
rationals / integers. -/
structure Aircraft where
  hex : String
  flight : String
  lat : Option ℚ
  lon : Option ℚ
  alt_baro : Option ℤ
  gs : Option ℚ
  ts : Option ℚ
  reg : Option String := none
  model_t : Option String := none
  model_desc : Option String := none
  is_mil : Bool := false
deriving DecidableEq

/-! ### Raw feed records and normalization (lines 221-251) -/

/-- A raw JSON field value, as Python sees it after `json` parsing.
JSON numbers are embedded as exact rationals. -/
inductive RawVal where
  | null
  | b (val : Bool)
  | num (val : ℚ)
  | str (val : String)
deriving DecidableEq

/-- Python truthiness of a raw value (`or` chains, `if val:`). -/
def RawVal.truthy : RawVal → Bool
  | .null => false
  | .b v => v
  | .num q => decide (q ≠ 0)
  | .str s => decide (s ≠ "")

/-- Python `str(val)` on a raw value (used on `dbFlags`, line 249). -/
def RawVal.toStr : RawVal → String
  | .null => "None"
  | .b v => if v then "True" else "False"
  | .num q => toString q
  | .str s => s

/-! #### Python string primitives

Embedded by structural recursion over the character list, mirroring the
CPython behaviour the source relies on (`str.lower`, `str.strip`,
`str.startswith`, `in`, `int(...)`, `fnmatch`). -/

/-- Python `s.lower()` (ASCII-relevant part). -/
def pyLower (s : String) : String := String.mk (s.data.map Char.toLower)

/-- Python `s.strip()`: drop leading and trailing whitespace. -/
def pyStrip (s : String) : String :=
  String.mk
    (((s.data.dropWhile Char.isWhitespace).reverse.dropWhile Char.isWhitespace).reverse)

/-- Python `s.startswith("#")`. -/
def pyStartsWithHash (s : String) : Bool :=
  match s.data with
  | [] => false
  | c :: _ => decide (c = '#')

/-- needle `cs` is a prefix of hay `ds`. -/
def charsPrefixEq : List Char → List Char → Bool
  | [], _ => true
  | _ :: _, [] => false
  | c :: cs, d :: ds => decide (c = d) && charsPrefixEq cs ds

/-- needle occurs as a contiguous substring of hay. -/
def charsContain (hay needle : List Char) : Bool :=
  match hay with
  | [] => charsPrefixEq needle []
  | _ :: rest => charsPrefixEq needle hay || charsContain rest needle

/-- Python `needle in hay` for strings. -/
def strContains (hay needle : String) : Bool := charsContain hay.data needle.data

/-- Digit-run parser for `pyParseInt`: `none` until at least one digit has
been consumed, failure on any non-digit. -/
def parseDigitsAux : Option ℕ → List Char → Option ℕ
  | acc, [] => acc
  | acc, c :: cs =>
    if c.isDigit then parseDigitsAux (some ((acc.getD 0) * 10 + (c.toNat - 48))) cs
    else none

/-- Python `int(s)` on an integer literal (optional sign then digits);
anything else raises, i.e. `none`.  (CPython also tolerates surrounding
whitespace; the feed's values never carry any.) -/
def pyParseInt (s : String) : Option ℤ :=
  match s.data with
  | '-' :: rest => (parseDigitsAux none rest).map (fun n => -(n : ℤ))
  | '+' :: rest => (parseDigitsAux none rest).map (fun n => (n : ℤ))
  | l => (parseDigitsAux none l).map (fun n => (n : ℤ))

/-- A raw aircraft record: the dict keys `to_aircraft` reads
(lines 233-250).  Missing keys are `.null` / `none`. -/
structure RawRec where
  hex : Option String := none
  flight : Option String := none
  lat : RawVal := .null
  lon : RawVal := .null
  alt_baro : RawVal := .null
  gs : RawVal := .null
  seen_pos_timestamp : RawVal := .null
  seen_timestamp : RawVal := .null
  r : Option String := none
  reg : Option String := none
  t : Option String := none
  desc : Option String := none
  force_mil : RawVal := .null
  military : RawVal := .null
  isMil : RawVal := .null
  mil : RawVal := .null
  dbFlags : RawVal := .null
deriving DecidableEq

/-- Truncation toward zero, mirroring Python `int()` on a float. -/
def ratTrunc (q : ℚ) : ℤ := if 0 ≤ q then ⌊q⌋ else ⌈q⌉

/-- safe_int (lines 222-226): `int(val)`, with TypeError/ValueError
becoming `none`.  `int(True) = 1`; `int` of a float truncates toward
zero; integer string literals parse, anything else fails. -/
def safe_int : RawVal → Option ℤ
  | .null => none
  | .b v => some (if v then 1 else 0)
  | .num q => some (ratTrunc q)
  | .str s => pyParseInt s

/-- safe_float (lines 228-232): `float(val)` with failures becoming
`none`.  The upstream feed encodes numeric fields as JSON numbers, which
arrive via the `.num` constructor; fractional string literals are not
modelled (integer strings are accepted, as `float` would). -/
def safe_float : RawVal → Option ℚ
  | .null => none
  | .b v => some (if v then 1 else 0)
  | .num q => some q
  | .str s => (pyParseInt s).map (fun n => (n : ℚ))

/-- Python `a or b` over two raw values (line 240). -/
def RawVal.orElse (a b : RawVal) : RawVal := if a.truthy then a else b

/-- Python `a or b` over two optional strings (line 241): `a` wins when it
is present and non-empty. -/
def strOrElse (a b : Option String) : Option String :=
  match a with
  | some s => if s = "" then b else some s
  | none => b

/-- to_aircraft (lines 221-251).  `hex` is lower-cased (empty stays the
empty string), `flight` is trimmed (empty stays the empty string); `reg`,
`model_t`, `model_desc` map empty/whitespace to `none` via `... or None`;
`is_mil` is the truthiness OR of several flags plus a case-insensitive
"military" substring test on `dbFlags`. -/
def to_aircraft (ac : RawRec) : Aircraft :=
  { hex := pyLower (ac.hex.getD "")
  , flight := pyStrip (ac.flight.getD "")
  , lat := safe_float ac.lat
  , lon := safe_float ac.lon
  , alt_baro := safe_int ac.alt_baro
  , gs := safe_float ac.gs
  , ts := safe_float (ac.seen_pos_timestamp.orElse ac.seen_timestamp)
  , reg := (let s := pyStrip ((strOrElse ac.r ac.reg).getD "")
            if s = "" then none else some s)
  , model_t := (let s := pyStrip (ac.t.getD "")
                if s = "" then none else some s)
  , model_desc := (let s := pyStrip (ac.desc.getD "")
                   if s = "" then none else some s)
  , is_mil := ac.force_mil.truthy || ac.military.truthy || ac.isMil.truthy ||
      ac.mil.truthy ||
      strContains (pyLower (if ac.dbFlags.truthy then ac.dbFlags.toStr else "")) "military" }

/-! ### Anomaly detection (lines 403-425) -/

/-- One anomaly note.  The source appends formatted strings; each
constructor stands for one of the five note formats, carrying the value
interpolated into the message. -/
inductive Note where
  | gsHigh (gs : ℚ)
  | gsLow (gs : ℚ)
  | altHigh (alt : ℤ)
  | altLow (alt : ℤ)
  | dgsAnom (dgs : ℚ)
  | vsAnom (vs : ℚ)
deriving DecidableEq

/-- A note produced by one of the two delta rules (requires a previous
sample). -/
def Note.isDelta : Note → Bool
  | .dgsAnom _ => true
  | .vsAnom _ => true
  | _ => false

/-- The ground-speed threshold block of detect_anomalies (lines 405-409). -/
def gs_threshold_notes (ac : Aircraft) : List Note :=
  match ac.gs with
  | none => []
  | some g =>
    if g > MAX_GS_KT then [Note.gsHigh g]
    else if g < MIN_GS_KT then [Note.gsLow g]
    else []

/-- The altitude threshold block of detect_anomalies (lines 410-414). -/
def alt_threshold_notes (ac : Aircraft) : List Note :=
  match ac.alt_baro with
  | none => []
  | some a =>
    if a > MAX_ALT_FT then [Note.altHigh a]
    else if a < MIN_ALT_FT then [Note.altLow a]
    else []

/-- The delta block of detect_anomalies (lines 415-424), guarded by
`if prev and dt_sec and dt_sec > 0` — a previous sample must exist and the
elapsed time must be truthy (non-zero) and positive. -/
def delta_notes (ac : Aircraft) (prev : Option Aircraft) (dt_sec : Option ℚ) :
    List Note :=
  match prev, dt_sec with
  | some p, some d =>
    if d ≠ 0 ∧ d > 0 then
      (match ac.gs, p.gs with
       | some g, some pg =>
         if |g - pg| > MAX_DGS_KTS then [Note.dgsAnom |g - pg|] else []
       | _, _ => []) ++
      (match ac.alt_baro, p.alt_baro with
       | some a, some pa =>
         let vs := (((a : ℚ) - (pa : ℚ)) / d) * 60
         if |vs| > MAX_VS_FPM then [Note.vsAnom vs] else []
       | _, _ => [])
    else []
  | _, _ => []

/-- detect_anomalies (lines 403-425): the notes of the three blocks, in
source order. -/
def detect_anomalies (ac : Aircraft) (prev : Option Aircraft) (dt_sec : Option ℚ) :
    List Note :=
  gs_threshold_notes ac ++ alt_threshold_notes ac ++ delta_notes ac prev dt_sec

/-! ### Rate limiter (api_rate_guard, lines 74-99) — timed model

The call opens the shared lockfile, takes an exclusive lock, reads the
stored timestamp `last`, and if less than 1.05 s has elapsed sleeps for
the remainder while still holding the lock; it then overwrites the file
with the current time and unlocks.  The timed model below idealises sleep
as exact: `now` is the clock value when the stored timestamp is read
(under the lock), and the returned value is the clock value at which the
call wakes, writes, and returns. -/

/-- The minimum inter-request interval, 1.05 seconds (line 91). -/
def MIN_API_INTERVAL : ℚ := 1.05

/-- Sleep duration chosen by api_rate_guard (lines 89-92): the remainder
of the minimum interval, or zero if it has already elapsed. -/
def api_sleep (last now : ℚ) : ℚ :=
  if now - last < MIN_API_INTERVAL then MIN_API_INTERVAL - (now - last) else 0

/-- api_rate_guard in the timed model: the time at which the call returns
(and which it writes back as the new stored timestamp, lines 94-98). -/
def api_rate_guard (last now : ℚ) : ℚ := now + api_sleep last now

/-! ### Tile fetching (fetch_tile, lines 191-207) -/

/-- The JSON body of a successful tile response; `aircraft` is the
optional record list under the `"aircraft"` key. -/
structure TileResponse where
  aircraft : Option (List RawRec)

/-- The retry loop of fetch_tile (lines 196-205): `transport attempt` is
`none` when that attempt raises (network error, non-2xx, malformed body)
and `some resp` on success.  `fuel` counts the remaining attempts
(initially `HTTP_RETRIES + 1`); on success the result is
`j.get("aircraft", []) or []`; when fuel runs out the source logs a
warning and returns `[]` (line 206-207). -/
def fetch_tile_from (transport : ℕ → Option TileResponse) : ℕ → ℕ → List RawRec
  | _, 0 => []
  | attempt, fuel + 1 =>
    match transport attempt with
    | some resp => resp.aircraft.getD []
    | none => fetch_tile_from transport (attempt + 1) fuel

/-- fetch_tile (lines 191-207): one initial attempt plus `HTTP_RETRIES`
retries.  The rate guard and backoff sleeps are timing side effects with
no bearing on the returned value. -/
def fetch_tile (transport : ℕ → Option TileResponse) : List RawRec :=
  fetch_tile_from transport 0 (HTTP_RETRIES + 1)

/-- The force-tagging of military-feed records (fetch_military,
lines 270-272): every dict in the response gets `force_mil = True`. -/
def tag_force_mil (data : List RawRec) : List RawRec :=
  data.map (fun ac => { ac with force_mil := RawVal.b true })

/-! ### Polygon loading (lines 138-186) -/

/-- A geometry of one GeoJSON feature, as far as the loader reads it.
Coordinates are in GeoJSON (lon, lat) vertex order. -/
inductive Geometry where
  | polygonGeom (coords : List (List (ℚ × ℚ)))
  | multiPolygonGeom (coords : List (List (List (ℚ × ℚ))))
  | otherGeom

/-- The top-level shape of a boundary file, as `load_polygons_from_geojson`
dispatches on it: a `FeatureCollection` dict, a dict with a `"polygons"`
key (rings as (lat, lon) pairs), or anything else. -/
inductive BoundaryDoc where
  | featureCollection (features : List Geometry)
  | polygonsDoc (polygons : List (List (List (ℚ × ℚ))))
  | unrecognized

/-- Swap a GeoJSON (lon, lat) vertex to the (lat, lon) order the
point-in-polygon code uses (lines 151, 157). -/
def swapRing (ring : List (ℚ × ℚ)) : List (ℚ × ℚ) :=
  ring.map (fun pt => (pt.2, pt.1))

/-- load_polygons_from_geojson (lines 138-167).  FeatureCollection
features contribute their Polygon / MultiPolygon geometries (other
geometry types are skipped); a `"polygons"` document is taken as
(lat, lon) rings verbatim; any other shape raises `ValueError`
(line 166), modelled as `.error`. -/
def load_polygons_from_geojson (data : BoundaryDoc) :
    Except String (List (List (List (ℚ × ℚ)))) :=
  match data with
  | .featureCollection features =>
    .ok (features.foldl
      (fun polys feat =>
        match feat with
        | .polygonGeom coords => polys ++ [coords.map swapRing]
        | .multiPolygonGeom coords => polys ++ coords.map (fun pc => pc.map swapRing)
        | .otherGeom => polys)
      [])
  | .polygonsDoc ps => .ok ps
  | .unrecognized => .error "Formato GeoJSON/JSON non riconosciuto"

/-- sample_approx_polygons (lines 169-186): four coarse bounding boxes,
each a single closed ring. -/
def sample_approx_polygons : List (List (List (ℚ × ℚ))) :=
  let boxes : List (ℚ × ℚ × ℚ × ℚ) :=
    [ (37.05, 37.55, -116.15, -115.30)
    , (37.55, 38.10, -117.20, -116.30)
    , (36.80, 38.30, -116.60, -115.00)
    , (36.50, 37.05, -116.40, -115.20) ]
  boxes.map (fun box =>
    match box with
    | (min_lat, max_lat, min_lon, max_lon) =>
      [[ (min_lat, min_lon)
       , (min_lat, max_lon)
       , (max_lat, max_lon)
       , (max_lat, min_lon)
       , (min_lat, min_lon) ]])

/-- The polygon-loading logic of main (lines 442-452): a supplied boundary
file is loaded, and a load error falls back to the built-in approximate
polygons; with no file argument the built-in set is used directly. -/
def main_polygons (arg : Option BoundaryDoc) : List (List (List (ℚ × ℚ))) :=
  match arg with
  | some doc =>
    match load_polygons_from_geojson doc with
    | .ok p => p
    | .error _ => sample_approx_polygons
  | none => sample_approx_polygons

/-! ### Hex filters (lines 284-304) -/

/-- The state of the hex-filter path in the file system, as
`load_hex_filters` encounters it: the path is not a regular file
(`os.path.isfile` false, line 287); the path is a regular file but
`open()` raises (e.g. `PermissionError`, carrying the error text); or
the file opens and yields its lines. -/
inductive FsFile where
  | notAFile
  | unreadable (err : String)
  | readable (lines : List String)

/-- load_hex_filters (lines 284-297).  `none` — no path was given
(line 285, empty result); `.notAFile` — `os.path.isfile` is false
(lines 287-289: warn, empty result); `.unreadable` — the path passes the
`isfile` check but `open()` at line 291 raises: there is no handler in
`load_hex_filters` or in `main` (only `KeyboardInterrupt` is caught at
top level), so the exception escapes, modelled as `.error`;
`.readable lines` — the file's lines, with blank lines and `#` comments
skipped and surviving lines lower-cased. -/
def load_hex_filters : Option FsFile → Except String (List String)
  | none => .ok []
  | some .notAFile => .ok []
  | some (.unreadable err) => .error err
  | some (.readable lines) => .ok (loadLines lines)
where
  loadLines : List String → List String
    | [] => []
    | line :: rest =>
      let s := pyStrip line
      if s = "" || pyStartsWithHash s then loadLines rest
      else pyLower s :: loadLines rest

/-- fnmatch-style glob matching over `*` and `?` (character classes are
not used by the source's patterns). -/
def globMatch : List Char → List Char → Bool
  | [], [] => true
  | [], p :: ps => if p = '*' then globMatch [] ps else false
  | _ :: _, [] => false
  | c :: cs, p :: ps =>
    if p = '*' then globMatch (c :: cs) ps || globMatch cs (p :: ps)
    else if p = '?' then globMatch cs ps
    else decide (c = p) && globMatch cs ps
termination_by s p => s.length + p.length

/-- match_hex (lines 299-304): true when any pattern glob-matches the
lower-cased hex code. -/
def match_hex (hex_code : String) (patterns : List String) : Bool :=
  patterns.any (fun pat => globMatch (pyLower hex_code).data pat.data)

/-- Filter mode of the --hex-filter-mode option. -/
inductive FilterMode where
  | includeMode
  | excludeMode
deriving DecidableEq

/-- The hex-filter application in main (lines 475-479): with a non-empty
pattern list, include mode keeps matching hexes and exclude mode drops
them; with an empty pattern list nothing is filtered. -/
def apply_hex_filter (patterns : List String) (mode : FilterMode)
    (aircraft : List Aircraft) : List Aircraft :=
  if patterns ≠ [] then
    match mode with
    | .includeMode => aircraft.filter (fun ac => match_hex ac.hex patterns)
    | .excludeMode => aircraft.filter (fun ac => !match_hex ac.hex patterns)
  else aircraft

/-! ### Per-cycle keyed view and contact store (main loop, lines 458-577)

Python dicts preserve the position of the first insertion of a key and let
a later insertion of the same key overwrite the value in place; the
association-list operations below mirror that. -/

/-- Lookup in a Python-dict model (`d.get(k)`). -/
def assocGet {α : Type} : List (String × α) → String → Option α
  | [], _ => none
  | (k₁, v₁) :: rest, k => if k = k₁ then some v₁ else assocGet rest k

/-- Insertion in a Python-dict model (`d[k] = v`): overwrite in place when
the key exists, else append. -/
def dictInsert {α : Type} : List (String × α) → String → α → List (String × α)
  | [], k, v => [(k, v)]
  | (k₁, v₁) :: rest, k, v =>
    if k₁ = k then (k₁, v) :: rest else (k₁, v₁) :: dictInsert rest k v

/-- One step of building the keyed view: skip falsy (empty) hexes,
otherwise insert keyed by hex. -/
def by_hex_step (m : List (String × Aircraft)) (ac : Aircraft) :
    List (String × Aircraft) :=
  if ac.hex = "" then m else dictInsert m ac.hex ac

/-- The per-cycle keyed view (line 481):
`by_hex = {ac.hex: ac for ac in aircraft if ac.hex}` — entries keyed by
hex, later occurrences of a key overwriting earlier ones in place. -/
def by_hex (aircraft : List Aircraft) : List (String × Aircraft) :=
  aircraft.foldl by_hex_step []

/-- The note column of a persisted row: either that cycle's joined anomaly
notes (possibly empty, line 510) or the fixed `"mil"` marker (line 559). -/
inductive RowNote where
  | anomalies (ns : List Note)
  | milFlag
deriving DecidableEq

/-- One row queued for the contact-store CSV (lines 500-511 and 549-560).
Numeric cells keep their values; the CSV string rendering is I/O outside
the model. -/
structure Row where
  first_seen_utc : String
  hex : String
  callsign : String
  reg : String
  model_t : String
  lat : Option ℚ
  lon : Option ℚ
  alt_ft : Option ℤ
  gs_kt : Option ℚ
  note : RowNote
deriving DecidableEq

/-- The first-sighting row (lines 500-511). -/
def mkRow (now_str : String) (ac : Aircraft) (anomalies : List Note) : Row :=
  { first_seen_utc := now_str
  , hex := ac.hex
  , callsign := ac.flight
  , reg := ac.reg.getD ""
  , model_t := ac.model_t.getD ""
  , lat := ac.lat
  , lon := ac.lon
  , alt_ft := ac.alt_baro
  , gs_kt := ac.gs
  , note := RowNote.anomalies anomalies }

/-- The unconditional military row (lines 549-560), note `"mil"`. -/
def mkMilRow (now_str : String) (ac : Aircraft) : Row :=
  { first_seen_utc := now_str
  , hex := ac.hex
  , callsign := ac.flight
  , reg := ac.reg.getD ""
  , model_t := ac.model_t.getD ""
  , lat := ac.lat
  , lon := ac.lon
  , alt_ft := ac.alt_baro
  , gs_kt := ac.gs
  , note := RowNote.milFlag }

/-- The loop-carried state of main: the persisted store's key set
(`seen_csv` — the loop reads only membership, so the store is modelled by
its hex keys) and the runtime memory `seen_runtime` (line 459). -/
structure CycleState where
  seenCsv : List String
  seenRuntime : List (String × Aircraft)
deriving DecidableEq

/-- The body of the per-aircraft loop (lines 486-566) for one
`by_hex` entry, threading (runtime memory, queued rows): look up the
previous sample, classify, append a first-sighting row when the hex is
not in the store, update runtime memory, then append the military row
when the sample is military-flagged.  Console printing and Telegram
dispatch are I/O side effects outside the model. -/
def processEntry (nowStr : String) (dtSec : Option ℚ) (seenCsv : List String)
    (acc : List (String × Aircraft) × List Row) (entry : String × Aircraft) :
    List (String × Aircraft) × List Row :=
  let hx := entry.1
  let ac := entry.2
  let prev := assocGet acc.1 hx
  let anomalies := detect_anomalies ac prev dtSec
  let rows1 :=
    if seenCsv.contains hx then acc.2 else acc.2 ++ [mkRow nowStr ac anomalies]
  let runtime := dictInsert acc.1 hx ac
  let rows2 := if ac.is_mil then rows1 ++ [mkMilRow nowStr ac] else rows1
  (runtime, rows2)

/-- One polling cycle over the post-filter aircraft list (lines 481-572):
build the keyed view, run the per-aircraft loop, then append the queued
rows to the store and record their hexes as seen (lines 569-572).  The
source computes `dt_sec` freshly per entry from the wall clock; the model
passes one elapsed value for the cycle (`none` on the first cycle, when
`last_poll_time` is still `None`). -/
def runCycle (st : CycleState) (aircraft : List Aircraft) (dtSec : Option ℚ)
    (nowStr : String) : CycleState × List Row :=
  let bh := by_hex aircraft
  let res := bh.foldl (processEntry nowStr dtSec st.seenCsv) (st.seenRuntime, [])
  ({ seenCsv := st.seenCsv ++ res.2.map (fun row => row.hex)
   , seenRuntime := res.1 }, res.2)

/-- Exterior ring of the spec's example polygon: the square
(0,0)-(0,10)-(10,10)-(10,0). -/
def testExterior : List (ℚ × ℚ) := [(0, 0), (0, 10), (10, 10), (10, 0)]

/-- Hole ring of the spec's example polygon: (4,4)-(4,6)-(6,6)-(6,4). -/
def testHole : List (ℚ × ℚ) := [(4, 4), (4, 6), (6, 6), (6, 4)]

/-- The spec's example polygon: square exterior with a central hole. -/
def testPoly : List (List (ℚ × ℚ)) := [testExterior, testHole]

/-! ### Concrete sample values used by witnesses and counterexamples -/

/-- A military-flagged in-zone sample (no speed/altitude data). -/
def milExample : Aircraft :=
  { hex := "ae1234", flight := "", lat := some 37, lon := some (-116)
  , alt_baro := none, gs := none, ts := none, is_mil := true }

/-- A non-military in-zone sample (no speed/altitude data). -/
def plainExample : Aircraft :=
  { hex := "abc123", flight := "", lat := some 37, lon := some (-116)
  , alt_baro := none, gs := none, ts := none }

/-- A sample with ground speed 700 kt and altitude 61,000 ft, the spec's
anomaly examples. -/
def anomalyExample : Aircraft :=
  { hex := "abc123", flight := "", lat := some 37, lon := some (-116)
  , alt_baro := some 61000, gs := some 700, ts := none }

/-- A raw record whose hex is the empty string, whose callsign is
whitespace only, and whose `r` (registration) field is the empty
string. -/
def rawEmptyRec : RawRec := { hex := some "", flight := some "   ", r := some "" }

/-- Modelled from the spec: "Hex and callsign are lower-cased/trimmed
respectively; empty strings become absent."  The callsign normalization
the spec's words describe — an optional string that is `none` when the
trimmed input is empty — stated for comparison against `to_aircraft`,
whose `flight` field is a plain string. -/
def spec_normalize_flight (raw : Option String) : Option String :=
  let s := pyStrip (raw.getD "")
  if s = "" then none else some s

/-- An empty raw record (all fields missing). -/
def exRawRec : RawRec := {}

/-- A transport that fails on attempt 0 and succeeds on attempt 1 with a
single-record aircraft list. -/
def exTransport : ℕ → Option TileResponse :=
  fun i => if i = 1 then some ⟨some [exRawRec]⟩ else none

/-- A tile-feed sample sharing hex "abc123" with `milNewer`. -/
def tileOlder : Aircraft :=
  { hex := "abc123", flight := "old", lat := some 37, lon := some (-116)
  , alt_baro := none, gs := none, ts := none }

/-- A military-feed sample sharing hex "abc123" with `tileOlder`. -/
def milNewer : Aircraft :=
  { hex := "abc123", flight := "new", lat := some 37, lon := some (-116)
  , alt_baro := none, gs := none, ts := none, is_mil := true }

end WatchNevada

namespace WatchNevada

/-! ## Theorems -/

/-- C2: for every polygon given as a non-empty list of rings and every
point, `point_in_polygon` returns true iff the point is inside ring 0
(the exterior, per `point_in_ring`) and outside every subsequent ring
(the holes); and on the spec's example polygon — exterior
(0,0)-(0,10)-(10,10)-(10,0) with hole (4,4)-(4,6)-(6,6)-(6,4) — the point
(5,5) yields false while (1,1) and (9,9) yield true. -/
theorem C2_point_in_polygon_spec :
    (∀ (exterior : List (ℚ × ℚ)) (holes : List (List (ℚ × ℚ))) (p : ℚ × ℚ),
      point_in_polygon p (exterior :: holes) = true ↔
        (point_in_ring p exterior = true ∧
         ∀ hole ∈ holes, point_in_ring p hole = false))
    ∧ point_in_polygon (5, 5) testPoly = false
    ∧ point_in_polygon (1, 1) testPoly = true
    ∧ point_in_polygon (9, 9) testPoly = true := by
  refine ⟨?_, ?_, ?_, ?_⟩
  · intro exterior holes p
    cases hext : point_in_ring p exterior with
    | false => simp [point_in_polygon, hext]
    | true =>
      simp only [point_in_polygon, hext]
      constructor
      · intro hres
        refine ⟨trivial, ?_⟩
        intro hole hmem
        by_contra hcon
        have hin : point_in_ring p hole = true := by
          cases hpr : point_in_ring p hole
          · exact absurd hpr hcon
          · rfl
        have hany : holes.any (fun hole => point_in_ring p hole) = true :=
          List.any_eq_true.mpr ⟨hole, hmem, hin⟩
        simp [hany] at hres
      · rintro ⟨-, hall⟩
        have hany : holes.any (fun hole => point_in_ring p hole) = false := by
          cases hq : holes.any (fun hole => point_in_ring p hole)
          · rfl
          · obtain ⟨hole, hmem, hin⟩ := List.any_eq_true.mp hq
            rw [hall hole hmem] at hin
            cases hin
        simp [hany]
  · norm_num [point_in_polygon, point_in_ring, testPoly, testExterior, testHole,
      List.range_succ]
  · norm_num [point_in_polygon, point_in_ring, testPoly, testExterior, testHole,
      List.range_succ]
  · norm_num [point_in_polygon, point_in_ring, testPoly, testExterior, testHole,
      List.range_succ]

/-- C7: a point with a missing latitude or longitude is contained in no
polygon set; with both coordinates present, `in_any_polygon` is true iff
`point_in_polygon` holds for at least one polygon of the set, hence false
over the empty set. -/
theorem C7_in_any_polygon_spec :
    (∀ (lon : Option ℚ) (polys : List (List (List (ℚ × ℚ)))),
      in_any_polygon none lon polys = false)
    ∧ (∀ (lat : Option ℚ) (polys : List (List (List (ℚ × ℚ)))),
      in_any_polygon lat none polys = false)
    ∧ (∀ (la lo : ℚ) (polys : List (List (List (ℚ × ℚ)))),
      in_any_polygon (some la) (some lo) polys = true ↔
        ∃ poly ∈ polys, point_in_polygon (la, lo) poly = true)
    ∧ (∀ (lat lon : Option ℚ), in_any_polygon lat lon [] = false) := by
  refine ⟨?_, ?_, ?_, ?_⟩
  · intro lon polys; cases lon <;> rfl
  · intro lat polys; cases lat <;> rfl
  · intro la lo polys; simp [in_any_polygon, List.any_eq_true]
  · intro lat lon; cases lat <;> cases lon <;> simp [in_any_polygon]

/-- C4: in the timed model of api_rate_guard, when the second call reads
the stored timestamp `t₁` (the previous call's return/write time) at
clock value `now₂ ≥ t₁` and less than the minimum interval has elapsed,
it sleeps exactly the remainder and returns at `t₁ + 1.05`; in every
case the second return is at least the minimum interval after the
first. -/
theorem C4_rate_guard_spec :
    ∀ t₁ now₂ : ℚ, t₁ ≤ now₂ →
      (now₂ - t₁ < MIN_API_INTERVAL →
        api_sleep t₁ now₂ = MIN_API_INTERVAL - (now₂ - t₁) ∧
        api_rate_guard t₁ now₂ = t₁ + MIN_API_INTERVAL)
      ∧ MIN_API_INTERVAL ≤ api_rate_guard t₁ now₂ - t₁ := by
  intro t₁ now₂ h
  constructor
  · intro hlt
    refine ⟨by simp [api_sleep, hlt], ?_⟩
    simp only [api_rate_guard, api_sleep, if_pos hlt]
    ring
  · by_cases hlt : now₂ - t₁ < MIN_API_INTERVAL
    · simp only [api_rate_guard, api_sleep, if_pos hlt]; linarith
    · simp only [api_rate_guard, api_sleep, if_neg hlt]; linarith

/-- C4 witness: a concrete second call reading timestamp 0 at clock 1/2
sleeps the remaining 0.55 s, returns at 1.05, and the inter-return
interval meets the minimum. -/
theorem C4_rate_guard_witness :
    api_sleep 0 (1 / 2) = MIN_API_INTERVAL - (1 / 2 - 0) ∧
    api_rate_guard 0 (1 / 2) = 0 + MIN_API_INTERVAL ∧
    MIN_API_INTERVAL ≤ api_rate_guard 0 (1 / 2) - 0 := by
  have h := C4_rate_guard_spec 0 (1 / 2) (by norm_num)
  have h1 := h.1 (by norm_num [MIN_API_INTERVAL])
  exact ⟨h1.1, h1.2, h.2⟩

/-- C5: when the transport fails exactly k times and then succeeds, with
k at most the retry limit HTTP_RETRIES, fetch_tile returns the record
list of the successful response; when the transport fails on every
attempt, fetch_tile returns the empty list (the function is total, so no
exception escapes). -/
theorem C5_fetch_tile_spec :
    (∀ (transport : ℕ → Option TileResponse) (k : ℕ) (resp : TileResponse),
      k ≤ HTTP_RETRIES → (∀ i, i < k → transport i = none) →
      transport k = some resp →
      fetch_tile transport = resp.aircraft.getD [])
    ∧ (∀ transport : ℕ → Option TileResponse,
      (∀ i, transport i = none) → fetch_tile transport = []) := by
  constructor
  · intro transport k resp hk hfail hsucc
    simp only [HTTP_RETRIES] at hk
    interval_cases k
    · simp [fetch_tile, fetch_tile_from, hsucc]
    · simp [fetch_tile, fetch_tile_from, hfail 0 (by norm_num), hsucc]
    · simp [fetch_tile, fetch_tile_from, hfail 0 (by norm_num),
        hfail 1 (by norm_num), hsucc]
  · intro transport h
    simp [fetch_tile, fetch_tile_from, h 0, h 1, h 2]

/-- C5 witness: a transport failing once then succeeding with a
one-record list yields that list; the always-failing transport yields
the empty list. -/
theorem C5_fetch_tile_witness :
    fetch_tile exTransport = [exRawRec] ∧
    fetch_tile (fun _ => none) = [] := by
  constructor
  · have h := C5_fetch_tile_spec.1 exTransport 1 ⟨some [exRawRec]⟩
      (by norm_num [HTTP_RETRIES])
      (fun i hi => by interval_cases i; rfl) rfl
    simpa using h
  · exact C5_fetch_tile_spec.2 _ (fun i => rfl)

/-- C6 counterexample: a recognized boundary-file input — a
FeatureCollection with no features — loads without error as an empty
polygon list, so polygon-set construction does not yield a non-empty set
for every input and the pipeline can run with zero geofence
definitions. -/
theorem C6_counterexample :
    main_polygons (some (BoundaryDoc.featureCollection [])) = [] := rfl

/-- C6 amended: an input of unrecognized top-level shape raises a load
error (ValueError, modelled as `.error`) that main catches and replaces
by the built-in set of four coarse bounding-box polygons, which is
non-empty. -/
theorem C6_amended_fallback :
    load_polygons_from_geojson BoundaryDoc.unrecognized =
      Except.error "Formato GeoJSON/JSON non riconosciuto"
    ∧ main_polygons (some BoundaryDoc.unrecognized) = sample_approx_polygons
    ∧ sample_approx_polygons.length = 4
    ∧ sample_approx_polygons ≠ [] := by
  refine ⟨rfl, rfl, rfl, ?_⟩
  simp [sample_approx_polygons]

/-- C10 counterexample: an existing regular file that cannot be opened —
it passes the `os.path.isfile` check, then `open()` at line 291 raises —
does not load as the empty pattern list: the exception escapes
`load_hex_filters` (and `main`, which catches only `KeyboardInterrupt`),
so the process crashes instead of continuing unfiltered. -/
theorem C10_counterexample :
    load_hex_filters (some (FsFile.unreadable "PermissionError")) =
      Except.error "PermissionError"
    ∧ load_hex_filters (some (FsFile.unreadable "PermissionError")) ≠
      Except.ok [] :=
  ⟨rfl, fun h => Except.noConfusion h⟩

/-- C10 amended: when the hex-filter path is not given, when it is not a
regular file, or when every line of the file is blank or a comment, the
loaded pattern list is empty, and with an empty pattern list the filter
step is the identity in either mode — include mode in particular drops
nothing; but an existing file whose `open()` fails raises an uncaught
exception instead of degrading to the empty pattern list. -/
theorem C10_amended_hex_filter :
    load_hex_filters none = Except.ok []
    ∧ load_hex_filters (some FsFile.notAFile) = Except.ok []
    ∧ (∀ lines : List String,
        (∀ line ∈ lines, pyStrip line = "" ∨ pyStartsWithHash (pyStrip line) = true) →
        load_hex_filters (some (FsFile.readable lines)) = Except.ok [])
    ∧ (∀ err : String,
        load_hex_filters (some (FsFile.unreadable err)) = Except.error err)
    ∧ (∀ (mode : FilterMode) (aircraft : List Aircraft),
        apply_hex_filter [] mode aircraft = aircraft) := by
  refine ⟨rfl, rfl, ?_, fun err => rfl, ?_⟩
  · intro lines h
    simp only [load_hex_filters, Except.ok.injEq]
    induction lines with
    | nil => rfl
    | cons line rest ih =>
      have h1 := h line (by simp)
      have hcond : (pyStrip line = "" || pyStartsWithHash (pyStrip line)) = true := by
        rcases h1 with h1 | h1 <;> simp [h1]
      simp only [load_hex_filters.loadLines, hcond]
      exact ih (fun l hl => h l (List.mem_cons_of_mem _ hl))
  · intro mode aircraft
    simp [apply_hex_filter]

/-- Every note of the gs-threshold block is a non-delta note. -/
theorem gs_threshold_notes_not_delta (ac : Aircraft) :
    ∀ n ∈ gs_threshold_notes ac, n.isDelta = false := by
  intro n hn
  cases hgs : ac.gs with
  | none => simp [gs_threshold_notes, hgs] at hn
  | some g => 
    simp only [gs_threshold_notes, hgs] at hn
    split_ifs at hn <;> simp_all [Note.isDelta]

/-- Every note of the alt-threshold block is a non-delta note. -/
theorem alt_threshold_notes_not_delta (ac : Aircraft) :
    ∀ n ∈ alt_threshold_notes ac, n.isDelta = false := by
  intro n hn
  cases ha : ac.alt_baro with
  | none => simp [alt_threshold_notes, ha] at hn
  | some a =>
    simp only [alt_threshold_notes, ha] at hn
    split_ifs at hn <;> simp_all [Note.isDelta]

/-- Every note of the delta block is a delta note. -/
theorem delta_notes_are_delta (ac : Aircraft) (prev : Option Aircraft)
    (dt : Option ℚ) : ∀ n ∈ delta_notes ac prev dt, n.isDelta = true := by
  intro n hn
  cases prev with
  | none => simp [delta_notes] at hn
  | some p =>
    cases dt with
    | none => simp [delta_notes] at hn
    | some d =>
      simp only [delta_notes] at hn
      split_ifs at hn with hcond
      · rw [List.mem_append] at hn
        rcases hn with hn | hn
        · rcases hg : ac.gs with _ | g <;> rcases hpg : p.gs with _ | pg <;>
            rw [hg, hpg] at hn <;> simp at hn
          obtain ⟨-, rfl⟩ := hn
          rfl
        · rcases ha : ac.alt_baro with _ | a <;> rcases hpa : p.alt_baro with _ | pa <;>
            rw [ha, hpa] at hn <;> simp at hn
          obtain ⟨-, rfl⟩ := hn
          rfl
      · simp at hn

/-- The delta block is empty without a previous sample or without a
positive elapsed time. -/
theorem delta_notes_eq_nil (ac : Aircraft) (prev : Option Aircraft) (dt : Option ℚ)
    (h : prev = none ∨ dt = none ∨ ∃ d, dt = some d ∧ d ≤ 0) :
    delta_notes ac prev dt = [] := by
  rcases h with h | h | ⟨d, hd, hle⟩
  · subst h; cases dt <;> rfl
  · subst h; cases prev <;> rfl
  · subst hd
    cases prev with
    | none => rfl
    | some p =>
      simp only [delta_notes]
      rw [if_neg]
      rintro ⟨-, hpos⟩
      linarith

/-- Membership of a high-GS note in the gs-threshold block. -/
theorem gsHigh_mem_gs_iff (ac : Aircraft) (g : ℚ) :
    Note.gsHigh g ∈ gs_threshold_notes ac ↔ ac.gs = some g ∧ MAX_GS_KT < g := by
  cases hgs : ac.gs with
  | none => simp [gs_threshold_notes, hgs]
  | some g₀ =>
    simp only [gs_threshold_notes, hgs]
    split_ifs with h1 h2
    · simp only [List.mem_singleton, Note.gsHigh.injEq, Option.some_inj]
      constructor
      · rintro rfl; exact ⟨rfl, h1⟩
      · rintro ⟨rfl, -⟩; rfl
    · simp only [List.mem_singleton]
      constructor
      · intro hm; cases hm
      · rintro ⟨heq, hgt⟩
        rw [Option.some_inj] at heq
        subst heq
        exact absurd hgt h1
    · simp only [List.not_mem_nil, false_iff]
      rintro ⟨heq, hgt⟩
      rw [Option.some_inj] at heq
      subst heq
      exact absurd hgt h1

/-- A high-GS note never comes from the alt-threshold block. -/
theorem gsHigh_not_mem_alt (ac : Aircraft) (g : ℚ) :
    Note.gsHigh g ∉ alt_threshold_notes ac := by
  intro hn
  have := alt_threshold_notes_not_delta ac _ hn
  cases ha : ac.alt_baro with
  | none => simp [alt_threshold_notes, ha] at hn
  | some a =>
    simp only [alt_threshold_notes, ha] at hn
    split_ifs at hn <;> simp_all

/-- Membership of a high-ALT note in the alt-threshold block. -/
theorem altHigh_mem_alt_iff (ac : Aircraft) (a : ℤ) :
    Note.altHigh a ∈ alt_threshold_notes ac ↔ ac.alt_baro = some a ∧ MAX_ALT_FT < a := by
  cases ha : ac.alt_baro with
  | none => simp [alt_threshold_notes, ha]
  | some a₀ =>
    simp only [alt_threshold_notes, ha]
    split_ifs with h1 h2
    · simp only [List.mem_singleton, Note.altHigh.injEq, Option.some_inj]
      constructor
      · rintro rfl; exact ⟨rfl, h1⟩
      · rintro ⟨rfl, -⟩; rfl
    · simp only [List.mem_singleton]
      constructor
      · intro hm; cases hm
      · rintro ⟨heq, hgt⟩
        rw [Option.some_inj] at heq
        subst heq
        exact absurd hgt h1
    · simp only [List.not_mem_nil, false_iff]
      rintro ⟨heq, hgt⟩
      rw [Option.some_inj] at heq
      subst heq
      exact absurd hgt h1

/-- A high-ALT note never comes from the gs-threshold block. -/
theorem altHigh_not_mem_gs (ac : Aircraft) (a : ℤ) :
    Note.altHigh a ∉ gs_threshold_notes ac := by
  intro hn
  cases hgs : ac.gs with
  | none => simp [gs_threshold_notes, hgs] at hn
  | some g =>
    simp only [gs_threshold_notes, hgs] at hn
    split_ifs at hn <;> simp_all

/-- C3: detect_anomalies emits a high-ground-speed note exactly when the
sample's ground speed is present and exceeds MAX_GS_KT = 650, and a
high-altitude note exactly when its altitude is present and exceeds
MAX_ALT_FT = 60000; delta-based notes are emitted only when a previous
sample exists and the elapsed time is a positive (truthy) value, so with
no previous sample — or no / non-positive elapsed time — no delta-based
note is produced regardless of values. -/
theorem C3_detect_anomalies_spec :
    ∀ (ac : Aircraft) (prev : Option Aircraft) (dt_sec : Option ℚ),
      (∀ g : ℚ, Note.gsHigh g ∈ detect_anomalies ac prev dt_sec ↔
        ac.gs = some g ∧ MAX_GS_KT < g)
      ∧ (∀ a : ℤ, Note.altHigh a ∈ detect_anomalies ac prev dt_sec ↔
        ac.alt_baro = some a ∧ MAX_ALT_FT < a)
      ∧ ((prev = none ∨ dt_sec = none ∨ ∃ d, dt_sec = some d ∧ d ≤ 0) →
        ∀ n ∈ detect_anomalies ac prev dt_sec, n.isDelta = false) := by
  intro ac prev dt
  refine ⟨?_, ?_, ?_⟩
  · intro g
    simp only [detect_anomalies, List.mem_append]
    constructor
    · rintro ((h | h) | h)
      · exact (gsHigh_mem_gs_iff ac g).mp h
      · exact absurd h (gsHigh_not_mem_alt ac g)
      · have hd := delta_notes_are_delta ac prev dt _ h
        simp [Note.isDelta] at hd
    · intro hgs
      exact Or.inl (Or.inl ((gsHigh_mem_gs_iff ac g).mpr hgs))
  · intro a
    simp only [detect_anomalies, List.mem_append]
    constructor
    · rintro ((h | h) | h)
      · exact absurd h (altHigh_not_mem_gs ac a)
      · exact (altHigh_mem_alt_iff ac a).mp h
      · have hd := delta_notes_are_delta ac prev dt _ h
        simp [Note.isDelta] at hd
    · intro halt
      exact Or.inl (Or.inr ((altHigh_mem_alt_iff ac a).mpr halt))
  · intro hcase n hn
    simp only [detect_anomalies, delta_notes_eq_nil ac prev dt hcase,
      List.append_nil, List.mem_append] at hn
    rcases hn with hn | hn
    · exact gs_threshold_notes_not_delta ac n hn
    · exact alt_threshold_notes_not_delta ac n hn

/-- C3 witness: the 700 kt / 61,000 ft sample with no previous sample
gets the high-GS and high-ALT notes and no implied-vertical-rate note. -/
theorem C3_detect_anomalies_witness :
    Note.gsHigh 700 ∈ detect_anomalies anomalyExample none none
    ∧ Note.altHigh 61000 ∈ detect_anomalies anomalyExample none none
    ∧ Note.vsAnom 9000 ∉ detect_anomalies anomalyExample none none := by
  have h := C3_detect_anomalies_spec anomalyExample none none
  refine ⟨?_, ?_, ?_⟩
  · exact (h.1 700).mpr ⟨rfl, by norm_num [MAX_GS_KT]⟩
  · exact (h.2.1 61000).mpr ⟨rfl, by norm_num [MAX_ALT_FT]⟩
  · intro hm
    have hd := h.2.2 (Or.inl rfl) _ hm
    simp [Note.isDelta] at hd

/-- Lookup after a Python-dict insertion: the inserted key maps to the new
value, every other key is unaffected. -/
theorem assocGet_dictInsert {α : Type} (m : List (String × α)) (k k' : String)
    (v : α) :
    assocGet (dictInsert m k v) k' = if k' = k then some v else assocGet m k' := by
  induction m with
  | nil =>
    simp only [dictInsert, assocGet]
  | cons p rest ih =>
    obtain ⟨k₁, v₁⟩ := p
    by_cases h : k₁ = k
    · subst h
      simp only [dictInsert, if_pos rfl, assocGet]
      by_cases h2 : k' = k₁ <;> simp [h2]
    · simp only [dictInsert, if_neg h, assocGet]
      by_cases h2 : k' = k₁
      · subst h2
        simp [h]
      · simp [h2, ih]

/-- A fold of `by_hex_step` over aircraft whose hexes all differ from `h`
leaves the lookup at `h` unchanged. -/
theorem by_hex_foldl_skip (l : List Aircraft) (init : List (String × Aircraft))
    (h : String) (hl : ∀ m ∈ l, m.hex ≠ h) :
    assocGet (l.foldl by_hex_step init) h = assocGet init h := by
  induction l generalizing init with
  | nil => rfl
  | cons a rest ih =>
    rw [List.foldl_cons, ih _ (fun m hm => hl m (List.mem_cons_of_mem _ hm))]
    have ha : a.hex ≠ h := hl a (List.mem_cons_self _ _)
    by_cases hz : a.hex = ""
    · simp [by_hex_step, hz]
    · simp [by_hex_step, hz, assocGet_dictInsert, Ne.symm ha]

/-- When some aircraft of the list carries hex `h` (non-empty), the fold's
lookup at `h` yields an element of the list with that hex. -/
theorem by_hex_foldl_find (l : List Aircraft) (init : List (String × Aircraft))
    (h : String) (hne : h ≠ "") (hmem : ∃ m ∈ l, m.hex = h) :
    ∃ m ∈ l, m.hex = h ∧ assocGet (l.foldl by_hex_step init) h = some m := by
  induction l generalizing init with
  | nil => simp at hmem
  | cons a rest ih =>
    by_cases hr : ∃ m ∈ rest, m.hex = h
    · obtain ⟨m, hm, hmh, hget⟩ := ih (by_hex_step init a) hr
      exact ⟨m, List.mem_cons_of_mem _ hm, hmh, by rw [List.foldl_cons]; exact hget⟩
    · obtain ⟨m, hm, hmh⟩ := hmem
      have hma : m = a := by
        rcases List.mem_cons.mp hm with h1 | h1
        · exact h1
        · exact absurd ⟨m, h1, hmh⟩ hr
      subst hma
      push_neg at hr
      refine ⟨m, List.mem_cons_self _ _, hmh, ?_⟩
      rw [List.foldl_cons, by_hex_foldl_skip rest _ h hr]
      simp [by_hex_step, hmh, hne, assocGet_dictInsert]

/-- C9: when tile records and military-feed records sharing a hex both
survive to the keyed view, the view keeps the last occurrence, so the
hex's entry comes from the military list (appended after all tiles); and
a military-feed record is force-tagged, so its normalized sample carries
`is_mil = true` regardless of its other flags. -/
theorem C9_military_last_wins :
    (∀ (tiles military : List Aircraft) (h : String), h ≠ "" →
      (∃ m ∈ military, m.hex = h) →
      ∃ m ∈ military, m.hex = h ∧ assocGet (by_hex (tiles ++ military)) h = some m)
    ∧ (∀ raw : RawRec,
      (to_aircraft { raw with force_mil := RawVal.b true }).is_mil = true) := by
  constructor
  · intro tiles military h hne hmem
    rw [by_hex, List.foldl_append]
    exact by_hex_foldl_find military _ h hne hmem
  · intro raw
    rfl

/-- C9 witness: with a tile record and a later military record sharing
hex "abc123", the keyed view maps the hex to the military record; and
force-tagging an empty raw record yields a military sample. -/
theorem C9_military_last_wins_witness :
    (∃ m ∈ [milNewer], m.hex = "abc123" ∧
      assocGet (by_hex ([tileOlder] ++ [milNewer])) "abc123" = some m)
    ∧ (to_aircraft { exRawRec with force_mil := RawVal.b true }).is_mil = true := by
  constructor
  · exact C9_military_last_wins.1 [tileOlder] [milNewer] "abc123" (by decide)
      ⟨milNewer, List.mem_cons_self _ _, rfl⟩
  · exact C9_military_last_wins.2 exRawRec

/-- C8 counterexample: for the raw record with empty hex, whitespace-only
callsign and empty registration, normalization yields a Sample whose
`hex` and `flight` fields are the (present) empty string — the Sample
type has no absent state for them, unlike `reg`, which does become
absent, and unlike the optional normalization the spec's words
describe (`spec_normalize_flight`), which yields `none` here. -/
theorem C8_counterexample :
    (to_aircraft rawEmptyRec).hex = ""
    ∧ (to_aircraft rawEmptyRec).flight = ""
    ∧ spec_normalize_flight rawEmptyRec.flight = none
    ∧ (to_aircraft rawEmptyRec).reg = none := by
  refine ⟨?_, ?_, ?_, ?_⟩ <;> decide

/-- C8 amended: normalization lower-cases the hex and trims the callsign,
but an empty string in either field remains the empty string in the
resulting Sample (those fields are plain strings); empty strings become
absent (`none`) only for the registration and the two model-description
fields. -/
theorem C8_amended_normalization :
    ∀ r : RawRec,
      (to_aircraft r).hex = pyLower (r.hex.getD "")
      ∧ (to_aircraft r).flight = pyStrip (r.flight.getD "")
      ∧ ((to_aircraft r).reg = none ↔ pyStrip ((strOrElse r.r r.reg).getD "") = "")
      ∧ ((to_aircraft r).model_t = none ↔ pyStrip (r.t.getD "") = "")
      ∧ ((to_aircraft r).model_desc = none ↔ pyStrip (r.desc.getD "") = "") := by
  intro r
  refine ⟨rfl, rfl, ?_, ?_, ?_⟩ <;>
  · simp only [to_aircraft]
    split_ifs with h <;> simp [h]

/-- C1 counterexample: a military-flagged aircraft observed in two
consecutive cycles appends three rows for its hex in total — a
first-sighting row plus an unconditional "mil" row in the first cycle,
and another "mil" row in the second — so the store does not receive
exactly one row per hex. -/
theorem C1_counterexample :
    (((runCycle ⟨[], []⟩ [milExample] none "c1").2 ++
      (runCycle (runCycle ⟨[], []⟩ [milExample] none "c1").1 [milExample]
        (some 60) "c2").2).filter (fun row => row.hex == "ae1234")).length = 3 := by
  simp [runCycle, by_hex, by_hex_step, processEntry, mkRow, mkMilRow, milExample,
    dictInsert, assocGet, detect_anomalies, gs_threshold_notes, alt_threshold_notes,
    delta_notes, List.contains, List.elem_eq_mem]

/-- C1 amended: for samples that are not military-flagged the store
receives exactly one row per hex — the same hex observed in two
consecutive cycles appends one row in total, and a hex absent from the
store but observed twice within one cycle is appended only once.
Military-flagged samples additionally append a "mil" row on every cycle
in which they are observed. -/
theorem C1_amended_dedup :
    ∀ (ac : Aircraft) (st : CycleState) (s₁ s₂ : String) (d₂ : Option ℚ),
      ac.is_mil = false → ac.hex ≠ "" → st.seenCsv.contains ac.hex = false →
      (((runCycle st [ac] none s₁).2 ++
        (runCycle (runCycle st [ac] none s₁).1 [ac] d₂ s₂).2).filter
          (fun row => row.hex == ac.hex)).length = 1
      ∧ ((runCycle st [ac, ac] none s₁).2.filter
          (fun row => row.hex == ac.hex)).length = 1 := by
  intro ac st s₁ s₂ d₂ hmil hhex hseen
  have hnm : ac.hex ∉ st.seenCsv := by
    simpa [List.contains, List.elem_eq_mem] using hseen
  constructor
  · simp [runCycle, by_hex, by_hex_step, processEntry, mkRow, mkMilRow, hhex, hmil,
      hnm, List.contains, List.elem_eq_mem, dictInsert, assocGet]
  · simp [runCycle, by_hex, by_hex_step, processEntry, mkRow, mkMilRow, hhex, hmil,
      hnm, List.contains, List.elem_eq_mem, dictInsert, assocGet]

/-- C1 witness: the non-military sample with hex "abc123", against an
empty store, gets exactly one row over two consecutive cycles and
exactly one row from a duplicated same-cycle observation. -/
theorem C1_amended_dedup_witness :
    (((runCycle ⟨[], []⟩ [plainExample] none "c1").2 ++
      (runCycle (runCycle ⟨[], []⟩ [plainExample] none "c1").1 [plainExample]
        (some 60) "c2").2).filter
        (fun row => row.hex == plainExample.hex)).length = 1
    ∧ ((runCycle ⟨[], []⟩ [plainExample, plainExample] none "c1").2.filter
        (fun row => row.hex == plainExample.hex)).length = 1 :=
  C1_amended_dedup plainExample ⟨[], []⟩ "c1" "c2" (some 60) rfl (by decide) rfl

/-- C2 witness: the general containment characterisation applied to the
example polygon at point (1,1) — inside the exterior, outside the hole —
yields containment. -/
theorem C2_point_in_polygon_witness :
    point_in_polygon (1, 1) (testExterior :: [testHole]) = true := by
  refine (C2_point_in_polygon_spec.1 testExterior [testHole] (1, 1)).mpr ⟨?_, ?_⟩
  · norm_num [point_in_ring, testExterior, List.range_succ]
  · intro hole hmem
    rw [List.mem_singleton] at hmem
    subst hmem
    norm_num [point_in_ring, testHole, List.range_succ]

/-- C7 witness: the point (1,1) with both coordinates present is inside
the one-polygon set containing the example polygon, and a point with a
missing latitude is in no polygon of that set. -/
theorem C7_in_any_polygon_witness :
    in_any_polygon (some 1) (some 1) [testPoly] = true
    ∧ in_any_polygon none (some 1) [testPoly] = false := by
  constructor
  · refine (C7_in_any_polygon_spec.2.2.1 1 1 [testPoly]).mpr
      ⟨testPoly, List.mem_singleton_self _, ?_⟩
    norm_num [point_in_polygon, point_in_ring, testPoly, testExterior, testHole,
      List.range_succ]
  · exact C7_in_any_polygon_spec.1 (some 1) [testPoly]

/-- C8 witness: the amended normalization instantiated at the empty raw
record. -/
theorem C8_amended_normalization_witness :
    (to_aircraft exRawRec).hex = pyLower (exRawRec.hex.getD "")
    ∧ (to_aircraft exRawRec).flight = pyStrip (exRawRec.flight.getD "")
    ∧ ((to_aircraft exRawRec).reg = none ↔
        pyStrip ((strOrElse exRawRec.r exRawRec.reg).getD "") = "") :=
  ⟨(C8_amended_normalization exRawRec).1, (C8_amended_normalization exRawRec).2.1,
    (C8_amended_normalization exRawRec).2.2.1⟩

/-- C10 witness: a readable filter file holding only a blank line and a
comment loads as the empty pattern list, an unreadable file propagates
its error, and the empty pattern list filters nothing in include
mode. -/
theorem C10_amended_hex_filter_witness :
    load_hex_filters (some (FsFile.readable ["", "# comment"])) = Except.ok []
    ∧ load_hex_filters (some (FsFile.unreadable "PermissionError")) =
        Except.error "PermissionError"
    ∧ apply_hex_filter [] FilterMode.includeMode [plainExample] = [plainExample] := by
  refine ⟨?_, ?_, ?_⟩
  · refine C10_amended_hex_filter.2.2.1 ["", "# comment"] ?_
    intro line hline
    rw [List.mem_cons, List.mem_singleton] at hline
    rcases hline with rfl | rfl
    · left; decide
    · right; decide
  · exact C10_amended_hex_filter.2.2.2.1 "PermissionError"
  · exact C10_amended_hex_filter.2.2.2.2 FilterMode.includeMode [plainExample]

end WatchNevada
